import Mathlib

/-!
# Agentic Wallet Guard — verification of the spec against the source

Shallow embedding of the wallet-guard engine (`guard.mjs`), the allowlist
(`allowlist.mjs`) and the integrity layer (`integrity.mjs`).

Modelling conventions, chosen to mirror the JavaScript source exactly:

* The persisted `state.json` is the `GuardState` value an operation returns.
  The source mutates an in-memory copy and persists it only on the paths that
  call `saveState`; on every other path the returned state is the state the
  operation was called with (the in-memory mutations are discarded).
* Timestamps are epoch milliseconds (`Int`).  The source stores some of them
  as ISO-8601 strings and converts back with `new Date(x).getTime()`, an
  exact round-trip, so the embedding keeps the milliseconds.  The wall clock
  observed during one call is a `Clock` value (the source reads `Date.now()`
  and `new Date().toISOString()` at call time; nothing is scheduled).
* Amounts are `Nat`.  Every comparison the source performs on amounts
  (`>`, `+`) is exact on the integer inputs the claims are about.
* `elapsed = (now - t) / 1000 < limit` on IEEE doubles is compared exactly:
  for integer `limit` it is equivalent to `now - t < 1000 * limit`, which is
  how the embedding states it.
* The audit log is the list of entries the call appends to
  `transactions.log`; an entry is the key/value list the source passes to
  `logTransaction`, in the literal field order of the source.
-/

/-- A requester identity `{ platform, id }`. -/
structure Identity where
  platform : String
  id : String
deriving DecidableEq, Repr

/-- `state.pendingConfirmation` as built at guard.mjs:231.  The source field
`to` is spelled `toAddr` here (`to` is a reserved token in this Lean setup);
the JSON key written to the audit log stays the literal `"to"`. -/
structure PendingTx where
  code : String
  toAddr : String
  amount : Nat
  token : String
  sender : Option Identity
  attempts : Nat
  createdAt : String
  expiresAt : Int
deriving DecidableEq, Repr

/-- The persisted guard state (`state.json`), fields as in `loadState`. -/
structure GuardState where
  frozen : Bool
  frozenAt : Option String
  frozenReason : Option String
  dailyTotal : Nat
  dailyDate : String
  lastTransaction : Option Int
  pendingConfirmation : Option PendingTx
  recentRequests : List Int
deriving DecidableEq, Repr

/-- `config.limits`. -/
structure Limits where
  perTransaction : Nat
  dailyMax : Nat
  highValueThreshold : Nat
deriving DecidableEq, Repr

/-- `config.cooldown` (seconds). -/
structure CooldownCfg where
  betweenTransactions : Nat
  afterRejection : Nat
deriving DecidableEq, Repr

/-- `config.confirmation`. -/
structure ConfirmationCfg where
  codeExpiry : Nat
  codeLength : Nat
  requiredForAllSends : Bool
deriving DecidableEq, Repr

/-- `config.freezeOnAnomalies`. -/
structure AnomalyCfg where
  rapidRequests : Nat
  windowSeconds : Nat
deriving DecidableEq, Repr

/-- `GuardConfig` (config.mjs `DEFAULT_CONFIG` shape). -/
structure GuardConfig where
  limits : Limits
  cooldown : CooldownCfg
  confirmation : ConfirmationCfg
  freezeOnAnomalies : AnomalyCfg
  authorizedSenders : List Identity
deriving DecidableEq, Repr

/-- `DEFAULT_CONFIG` from config.mjs. -/
def DEFAULT_CONFIG : GuardConfig :=
  { limits := { perTransaction := 50, dailyMax := 200, highValueThreshold := 100 }
    cooldown := { betweenTransactions := 30, afterRejection := 300 }
    confirmation := { codeExpiry := 300, codeLength := 6, requiredForAllSends := true }
    freezeOnAnomalies := { rapidRequests := 3, windowSeconds := 60 }
    authorizedSenders := [] }

/-- One allowlist row `{ address, label, addedAt }`. -/
structure AllowEntry where
  address : String
  label : String
  addedAt : String
deriving DecidableEq, Repr

/-- `allowlist.json` content. -/
structure Allowlist where
  addresses : List AllowEntry
deriving DecidableEq, Repr

/-- JavaScript `String.prototype.toLowerCase` on the ASCII addresses the
guard compares: character-wise lowercasing. -/
def toLowerStr (s : String) : String := ⟨s.data.map Char.toLower⟩

/-- `isAllowed` from allowlist.mjs (case-insensitive membership). -/
def isAllowed (al : Allowlist) (addr : String) : Bool :=
  al.addresses.any fun a => toLowerStr a.address == toLowerStr addr

/-- The wall clock observed during one synchronous call: `Date.now()` in
milliseconds, `new Date().toISOString()`, and its first 10 characters
(`.slice(0, 10)`, the calendar date). -/
structure Clock where
  nowMs : Int
  nowIso : String
  today : String
deriving DecidableEq, Repr

/-- A JSON value as it appears in an audit-log entry. -/
inductive JVal where
  | str : String → JVal
  | num : Nat → JVal
  | ident : Option Identity → JVal
deriving DecidableEq, Repr

/-- One audit-log entry: the key/value list passed to `logTransaction`,
in the literal order of the source object. -/
abbrev LogEntry := List (String × JVal)

/-- Result of one operation: the persisted state after the call, the entries
appended to `transactions.log`, and the returned value. -/
structure OpOut (α : Type) where
  state : GuardState
  log : List LogEntry
  result : α
deriving DecidableEq, Repr

/-- Return value of `requestSend`. -/
structure RequestResult where
  approved : Bool
  needsConfirmation : Bool
  reason : Option String
  message : Option String
deriving DecidableEq, Repr

/-- Return value of `confirmSend`. -/
structure ConfirmResult where
  approved : Bool
  reason : Option String
  toAddr : Option String
  amount : Option Nat
  token : Option String
  message : Option String
deriving DecidableEq, Repr

/-- `MAX_CONFIRM_ATTEMPTS` (guard.mjs:67). -/
def MAX_CONFIRM_ATTEMPTS : Nat := 3

/-- Node's `crypto.randomInt(lo, hi)`: a uniform integer in `[lo, hi)` —
the upper bound is exclusive.  `r` is the raw entropy drawn by the RNG;
every residue of `r` modulo `hi - lo` is equally likely. -/
def randomInt (lo hi r : Nat) : Nat :=
  lo + r % (hi - lo)

/-- The confirmation code generator at guard.mjs:230:
`String(randomInt(100000, 999999))` — this is the numeric part. -/
def genCode (r : Nat) : Nat :=
  randomInt 100000 999999 r

/-- The default state `loadState` returns when `state.json` is absent. -/
def initialState (today : String) : GuardState :=
  { frozen := false
    frozenAt := none
    frozenReason := none
    dailyTotal := 0
    dailyDate := today
    lastTransaction := none
    pendingConfirmation := none
    recentRequests := [] }

/-- Daily rollover (guard.mjs:156-159 and 133-136): reset `dailyTotal`
when the stored calendar date is not today. -/
def rollover (s : GuardState) (today : String) : GuardState :=
  if s.dailyDate ≠ today then { s with dailyTotal := 0, dailyDate := today } else s

/-- The sender-authorization gate (guard.mjs:168-176): fails when the
configured list is non-empty, a sender was supplied, and no exact
platform/id match exists. -/
def unauthorizedSender (cfg : GuardConfig) (sender : Option Identity) : Bool :=
  match sender with
  | none => false
  | some snd =>
    decide (0 < cfg.authorizedSenders.length) &&
      !(cfg.authorizedSenders.any fun a => a.platform == snd.platform && a.id == snd.id)

/-- The cooldown gate (guard.mjs:206-212): `(now - lastTransaction)/1000`
seconds elapsed is below `cooldown.betweenTransactions`. -/
def cooldownActive (s : GuardState) (clk : Clock) (cfg : GuardConfig) : Bool :=
  match s.lastTransaction with
  | none => false
  | some t => decide (clk.nowMs - t < 1000 * (cfg.cooldown.betweenTransactions : Int))

/-- Remaining cooldown wait `Math.ceil(betweenTransactions - elapsed)` in
seconds (guard.mjs:209), computed on the millisecond values. -/
def cooldownWait (s : GuardState) (clk : Clock) (cfg : GuardConfig) : Nat :=
  match s.lastTransaction with
  | none => 0
  | some t =>
    ((1000 * (cfg.cooldown.betweenTransactions : Int) - (clk.nowMs - t)).toNat + 999) / 1000

/-- Anomaly-window pruning (guard.mjs:215-217): keep request timestamps
younger than `windowSeconds`. -/
def pruneRecent (l : List Int) (clk : Clock) (cfg : GuardConfig) : List Int :=
  l.filter fun ts => decide (clk.nowMs - ts < 1000 * (cfg.freezeOnAnomalies.windowSeconds : Int))

/-- `requestSend` (guard.mjs:149-250).  Arguments mirror
`requestSend(baseDir, { to, amount, token = 'USDC', sender = null })`;
`rnd` is the entropy consumed by `crypto.randomInt` on the success path. -/
def requestSend (cfg : GuardConfig) (al : Allowlist) (s : GuardState) (clk : Clock)
    (rnd : Nat) (toAddr : String) (amount : Nat) (token : String) (sender : Option Identity) :
    OpOut RequestResult :=
  let rolled := rollover s clk.today
  if rolled.frozen then
    ⟨s, [[("action", .str "rejected"), ("reason", .str "wallet_frozen"),
          ("to", .str toAddr), ("amount", .num amount), ("token", .str token)]],
      { approved := false, needsConfirmation := false,
        reason := some "🛑 Wallet is FROZEN. Unfreeze before sending.", message := none }⟩
  else if unauthorizedSender cfg sender then
    ⟨s, [[("action", .str "rejected"), ("reason", .str "unauthorized_sender"),
          ("sender", .ident sender), ("to", .str toAddr), ("amount", .num amount)]],
      { approved := false, needsConfirmation := false,
        reason := some "🚫 Unauthorized sender.", message := none }⟩
  else if !isAllowed al toAddr then
    ⟨s, [[("action", .str "rejected"), ("reason", .str "address_not_allowlisted"),
          ("to", .str toAddr), ("amount", .num amount)]],
      { approved := false, needsConfirmation := false,
        reason := some ("🚫 Address not in allowlist. Add it first:\n  awg allowlist add "
          ++ toAddr ++ " --label \"description\""), message := none }⟩
  else if amount > cfg.limits.perTransaction then
    ⟨s, [[("action", .str "rejected"), ("reason", .str "over_per_tx_limit"),
          ("to", .str toAddr), ("amount", .num amount)]],
      { approved := false, needsConfirmation := false,
        reason := some ("🚫 Amount $" ++ Nat.repr amount
          ++ " exceeds per-transaction limit of $"
          ++ Nat.repr cfg.limits.perTransaction ++ "."), message := none }⟩
  else if rolled.dailyTotal + amount > cfg.limits.dailyMax then
    ⟨s, [[("action", .str "rejected"), ("reason", .str "over_daily_limit"),
          ("to", .str toAddr), ("amount", .num amount)]],
      { approved := false, needsConfirmation := false,
        reason := some ("🚫 Would exceed daily limit. Spent: $"
          ++ Nat.repr rolled.dailyTotal ++ "/$"
          ++ Nat.repr cfg.limits.dailyMax ++ "."), message := none }⟩
  else if cooldownActive s clk cfg then
    -- NOTE (guard.mjs:206-212): this rejection path calls no logTransaction.
    ⟨s, [],
      { approved := false, needsConfirmation := false,
        reason := some ("⏱️ Cooldown active. Wait "
          ++ Nat.repr (cooldownWait s clk cfg) ++ "s."), message := none }⟩
  else
    let pushed := pruneRecent s.recentRequests clk cfg ++ [clk.nowMs]
    if pushed.length ≥ cfg.freezeOnAnomalies.rapidRequests then
      ⟨{ rolled with
          frozen := true, frozenAt := some clk.nowIso,
          frozenReason := some "anomaly_rapid_requests", recentRequests := pushed },
        [[("action", .str "auto_freeze"), ("reason", .str "rapid_requests"),
          ("count", .num pushed.length)]],
        { approved := false, needsConfirmation := false,
          reason := some "🛑 WALLET AUTO-FROZEN: Too many rapid requests detected.",
          message := none }⟩
    else
      let code := Nat.repr (genCode rnd)
      ⟨{ rolled with
          recentRequests := pushed,
          pendingConfirmation := some
            { code := code, toAddr := toAddr, amount := amount, token := token, sender := sender,
              attempts := 0, createdAt := clk.nowIso,
              expiresAt := clk.nowMs + 1000 * (cfg.confirmation.codeExpiry : Int) } },
        [[("action", .str "confirmation_requested"), ("to", .str toAddr),
          ("amount", .num amount), ("token", .str token)]],
        { approved := false, needsConfirmation := true, reason := none,
          message := some ("🔐 Confirm send of $" ++ Nat.repr amount ++ " " ++ token
            ++ " to " ++ toAddr ++ "\n\nConfirmation code: **" ++ code
            ++ "**\n\nReply with this code to approve. Expires in "
            ++ Nat.repr (cfg.confirmation.codeExpiry / 60) ++ " minutes.") }⟩

/-- Confirm-time sender check (guard.mjs:271-276): both identities present
and differing in platform or id. -/
def senderMismatch (a b : Option Identity) : Bool :=
  match a, b with
  | some x, some y => x.platform != y.platform || x.id != y.id
  | _, _ => false

/-- `confirmSend` (guard.mjs:252-325). -/
def confirmSend (s : GuardState) (clk : Clock) (code : String) (sender : Option Identity) :
    OpOut ConfirmResult :=
  match s.pendingConfirmation with
  | none =>
    ⟨s, [],
      { approved := false, reason := some "No pending transaction to confirm.",
        toAddr := none, amount := none, token := none, message := none }⟩
  | some pending =>
    if clk.nowMs > pending.expiresAt then
      ⟨{ s with pendingConfirmation := none },
        [[("action", .str "confirmation_expired"), ("to", .str pending.toAddr),
          ("amount", .num pending.amount)]],
        { approved := false,
          reason := some "⏰ Confirmation code expired. Request a new transaction.",
          toAddr := none, amount := none, token := none, message := none }⟩
    else if senderMismatch pending.sender sender then
      ⟨s, [[("action", .str "sender_mismatch"), ("to", .str pending.toAddr),
            ("amount", .num pending.amount)]],
        { approved := false,
          reason := some "🚫 Sender mismatch. Only the original requester can confirm.",
          toAddr := none, amount := none, token := none, message := none }⟩
    else if code ≠ pending.code then
      let attempts := pending.attempts + 1
      if attempts ≥ MAX_CONFIRM_ATTEMPTS then
        ⟨{ s with pendingConfirmation := none },
          [[("action", .str "brute_force_cancel"), ("to", .str pending.toAddr),
            ("amount", .num pending.amount), ("attempts", .num attempts)]],
          { approved := false,
            reason := some "🛑 Transaction auto-cancelled: too many wrong confirmation codes.",
            toAddr := none, amount := none, token := none, message := none }⟩
      else
        ⟨{ s with pendingConfirmation := some { pending with attempts := attempts } },
          [[("action", .str "wrong_code"), ("to", .str pending.toAddr),
            ("amount", .num pending.amount)]],
          { approved := false,
            reason := some ("❌ Wrong confirmation code. "
              ++ Nat.repr (MAX_CONFIRM_ATTEMPTS - attempts) ++ " attempt(s) remaining."),
            toAddr := none, amount := none, token := none, message := none }⟩
    else
      ⟨{ s with
          dailyTotal := s.dailyTotal + pending.amount,
          lastTransaction := some clk.nowMs, pendingConfirmation := none },
        [[("action", .str "approved"), ("to", .str pending.toAddr),
          ("amount", .num pending.amount), ("token", .str pending.token)]],
        { approved := true, reason := none,
          toAddr := some pending.toAddr, amount := some pending.amount, token := some pending.token,
          message := some ("✅ Approved! Sending $" ++ Nat.repr pending.amount ++ " "
            ++ pending.token ++ " to " ++ pending.toAddr) }⟩

/-- Return value of `freeze` / `unfreeze`. -/
structure FreezeResult where
  frozen : Bool
  reason : Option String
deriving DecidableEq, Repr

/-- `freeze` (guard.mjs:108-116). -/
def freeze (s : GuardState) (clk : Clock) (reason : String) : OpOut FreezeResult :=
  ⟨{ s with frozen := true, frozenAt := some clk.nowIso, frozenReason := some reason },
    [[("action", .str "freeze"), ("reason", .str reason)]],
    { frozen := true, reason := some reason }⟩

/-- `unfreeze` (guard.mjs:118-126). -/
def unfreeze (s : GuardState) : OpOut FreezeResult :=
  ⟨{ s with frozen := false, frozenAt := none, frozenReason := none },
    [[("action", .str "unfreeze")]],
    { frozen := false, reason := none }⟩

/-- Return value of `getStatus`. -/
structure StatusView where
  frozen : Bool
  frozenReason : Option String
  dailyTotal : Nat
  dailyMax : Nat
  dailyRemaining : Int
  pendingConfirmation : Bool
deriving DecidableEq, Repr

/-- `getStatus` (guard.mjs:128-147): saves only the date rollover. -/
def getStatus (cfg : GuardConfig) (s : GuardState) (clk : Clock) : OpOut StatusView :=
  let s' := rollover s clk.today
  ⟨s', [],
    { frozen := s'.frozen, frozenReason := s'.frozenReason,
      dailyTotal := s'.dailyTotal, dailyMax := cfg.limits.dailyMax,
      dailyRemaining := (cfg.limits.dailyMax : Int) - (s'.dailyTotal : Int),
      pendingConfirmation := s'.pendingConfirmation.isSome }⟩

/-- `verify` from integrity.mjs:43-59 as a pure function of what it reads:
the process secret, the tracked file's content (`none` when the file does
not exist), and the stored tag for that file (`none` when `.signatures`
has no entry).  `hmac` stands for `createHmac('sha256', secret)
.update(content).digest()`; `timingSafeEqual` on equal-length buffers is
equality. -/
def verify (hmac : String → String → List Nat) (secret : Option String)
    (content : Option String) (storedTag : Option (List Nat)) : Bool :=
  match secret with
  | none => true
  | some sec =>
    match content with
    | none => true
    | some c =>
      match storedTag with
      | none => false
      | some tag =>
        if (hmac sec c).length ≠ tag.length then false
        else hmac sec c == tag

/-! ## Serialization of audit-log lines

`logTransaction` (guard.mjs:101-106) writes
`JSON.stringify({ ...entry, timestamp: new Date().toISOString() }) + '\n'`.
The serializer below reproduces that line at the character level for the
entries the engine produces (whose strings need no JSON escaping).  `ts` is
the ISO timestamp string observed by `logTransaction`. -/

/-- JSON rendering of one entry value. -/
def renderJVal : JVal → List Char
  | .str s => ['"'] ++ s.data ++ ['"']
  | .num n => (Nat.repr n).data
  | .ident none => "null".data
  | .ident (some i) =>
    "\x7b\"platform\":\"".data ++ i.platform.data
      ++ "\",\"id\":\"".data ++ i.id.data ++ "\"\x7d".data

/-- JSON rendering of one `"key":value` field. -/
def renderPair (k : String) (v : JVal) : List Char :=
  ('"' :: k.data ++ ['"', ':']) ++ renderJVal v

/-- Comma-separated field list. -/
def renderFields : List (String × JVal) → List Char
  | [] => []
  | [(k, v)] => renderPair k v
  | (k, v) :: rest => renderPair k v ++ (',' :: renderFields rest)

/-- The full log line for one entry (timestamp appended last, as the spread
`{ ...entry, timestamp }` puts it). -/
def serializeEntry (e : LogEntry) (ts : String) : List Char :=
  '\x7b' :: (renderFields (e ++ [("timestamp", JVal.str ts)]) ++ "\x7d\n".data)

/-- The dynamic strings a JSON value contributes to its rendering. -/
def jvalStrings : JVal → List (List Char)
  | .str s => [s.data]
  | .num n => [(Nat.repr n).data]
  | .ident none => []
  | .ident (some i) => [i.platform.data, i.id.data]

/-- No character of `l` is a decimal digit. -/
def digitFree (l : List Char) : Prop := ∀ c ∈ l, c.isDigit = false

/-- Every character of `l` is a decimal digit. -/
def allDigits (l : List Char) : Prop := ∀ c ∈ l, c.isDigit = true

/-- The head of `r`, when it exists, is not a digit. -/
def headNonDigit (r : List Char) : Prop :=
  ∀ c, r.head? = some c → c.isDigit = false

instance (l : List Char) : Decidable (digitFree l) := by
  unfold digitFree; infer_instance

instance (l : List Char) : Decidable (allDigits l) := by
  unfold allDigits; infer_instance

/-! ## A digit string cannot hide in the punctuation of a log line

The confirmation code is a non-empty all-digit string.  The lemmas below
show that such a string occurs in a serialized log line only inside one of
the dynamic values of the entry (or the timestamp) — never across the JSON
punctuation, keys, or boundaries, which contain no digits. -/

/-- An occurrence of `t` inside `a ++ b` lies in `a`, lies in `b`, or
straddles the boundary with a non-empty part in `a`. -/
theorem subAppendSplit {α : Type} {t a b : List α} (h : t <:+: a ++ b) :
    t <:+: a ∨ t <:+: b ∨
      ∃ t₁ t₂, t = t₁ ++ t₂ ∧ t₁ ≠ [] ∧ t₁ <:+ a ∧ t₂ <+: b := by
  obtain ⟨s, e, hse⟩ := h
  have h1 : (s ++ t) ++ e = a ++ b := by simpa [List.append_assoc] using hse
  rcases List.append_eq_append_iff.mp h1 with ⟨w, hw1, hw2⟩ | ⟨w, hw1, hw2⟩
  · exact Or.inl ⟨s, w, by rw [hw1]⟩
  · rcases List.append_eq_append_iff.mp hw1 with ⟨u, hu1, hu2⟩ | ⟨u, hu1, hu2⟩
    · by_cases hu : u = []
      · subst hu
        simp only [List.nil_append] at hu2
        exact Or.inr (Or.inl ⟨[], e, by rw [hw2, ← hu2]; simp⟩)
      · exact Or.inr (Or.inr ⟨u, w, hu2, hu, ⟨s, hu1.symm⟩, ⟨e, hw2.symm⟩⟩)
    · exact Or.inr (Or.inl ⟨u, e, by rw [hw2, hu2]⟩)

/-- Membership transfers along an occurrence. -/
theorem memOfSub {α : Type} {t l : List α} (h : t <:+: l) {c : α} (hc : c ∈ t) :
    c ∈ l := by
  obtain ⟨s, e, hse⟩ := h
  subst hse
  simp [hc]

/-- A non-empty all-digit string occurring in `g ++ r` with digit-free `g`
occurs in `r`. -/
theorem dropGlue {t g r : List Char} (ht : t ≠ []) (hd : allDigits t)
    (hg : digitFree g) (h : t <:+: g ++ r) : t <:+: r := by
  rcases subAppendSplit h with h1 | h1 | ⟨t₁, t₂, heq, hne, hsuf, -⟩
  · cases t with
    | nil => exact absurd rfl ht
    | cons c t' =>
      have h2 := hg c (memOfSub h1 (by simp))
      have h3 := hd c (by simp)
      simp [h3] at h2
  · exact h1
  · cases t₁ with
    | nil => exact absurd rfl hne
    | cons c t' =>
      have h2 := hg c (hsuf.subset (by simp))
      have h3 := hd c (by rw [heq]; simp)
      simp [h3] at h2

/-- An all-digit string occurring in `v ++ r`, where `r` does not start with
a digit, occurs in `v` or in `r`. -/
theorem valOrRest {t v r : List Char} (hd : allDigits t)
    (hr : headNonDigit r) (h : t <:+: v ++ r) : t <:+: v ∨ t <:+: r := by
  rcases subAppendSplit h with h1 | h1 | ⟨t₁, t₂, heq, hne, hsuf, hpre⟩
  · exact Or.inl h1
  · exact Or.inr h1
  · cases t₂ with
    | nil =>
      obtain ⟨s, hs⟩ := hsuf
      exact Or.inl ⟨s, [], by rw [heq]; simp [hs]⟩
    | cons c t₂' =>
      obtain ⟨e, he⟩ := hpre
      have h1 : r.head? = some c := by rw [← he]; rfl
      have h2 := hr c h1
      have h3 := hd c (by rw [heq]; simp)
      simp [h3] at h2

/-- A list starting with a non-digit character. -/
theorem headNDCons {c : Char} {l r : List Char} (hc : c.isDigit = false) :
    headNonDigit ((c :: l) ++ r) := by
  intro d hd
  simp only [List.cons_append, List.head?_cons, Option.some.injEq] at hd
  rw [← hd]
  exact hc

/-- A non-empty digit-free block shields whatever follows it. -/
theorem headNDAppend {g r : List Char} (hg : g ≠ []) (hgf : digitFree g) :
    headNonDigit (g ++ r) := by
  cases g with
  | nil => exact absurd rfl hg
  | cons c g' => exact headNDCons (hgf c (by simp))

/-- A digit-free list does not start with a digit. -/
theorem headNDOfDigitFree {r : List Char} (h : digitFree r) : headNonDigit r := by
  intro c hc
  cases r with
  | nil => simp at hc
  | cons d r' =>
    simp only [List.head?_cons, Option.some.injEq] at hc
    rw [← hc]
    exact h d (by simp)

/-- The quoted-key glue of a field is digit-free when the key is. -/
theorem glueDigitFree {k : String} (hk : digitFree k.data) :
    digitFree ('"' :: k.data ++ ['"', ':']) := by
  intro c hc
  have h1 : c = '"' ∨ c ∈ k.data ∨ c = '"' ∨ c = ':' := by
    simpa using hc
  rcases h1 with rfl | h | rfl | rfl
  · decide
  · exact hk c h
  · decide
  · decide

/-- A non-empty all-digit string occurring in a rendered JSON value followed
by non-digit-headed material occurs in one of the value's dynamic strings or
in the following material. -/
theorem jvalNoLeak {t : List Char} (ht : t ≠ []) (hd : allDigits t)
    (v : JVal) (r : List Char) (hr : headNonDigit r)
    (h : t <:+: renderJVal v ++ r) :
    (∃ w ∈ jvalStrings v, t <:+: w) ∨ t <:+: r := by
  cases v with
  | str s =>
    have h' : t <:+: ['"'] ++ (s.data ++ (['"'] ++ r)) := by
      simpa [renderJVal, List.append_assoc] using h
    have h2 := dropGlue ht hd (by decide) h'
    rcases valOrRest hd (headNDCons (by decide)) h2 with h3 | h3
    · exact Or.inl ⟨s.data, by simp [jvalStrings], h3⟩
    · exact Or.inr (dropGlue ht hd (by decide) h3)
  | num n =>
    rcases valOrRest hd hr (by simpa [renderJVal] using h) with h3 | h3
    · exact Or.inl ⟨(Nat.repr n).data, by simp [jvalStrings], h3⟩
    · exact Or.inr h3
  | ident i =>
    cases i with
    | none =>
      have h' : t <:+: (['n', 'u', 'l', 'l'] : List Char) ++ r := by
        simpa [renderJVal] using h
      exact Or.inr (dropGlue ht hd (by decide) h')
    | some iden =>
      have h' : t <:+: "\x7b\"platform\":\"".data
          ++ (iden.platform.data ++ ("\",\"id\":\"".data
          ++ (iden.id.data ++ ("\"\x7d".data ++ r)))) := by
        simpa [renderJVal, List.append_assoc] using h
      have h2 := dropGlue ht hd (by decide) h'
      rcases valOrRest hd (headNDAppend (by decide) (by decide)) h2 with h3 | h3
      · exact Or.inl ⟨iden.platform.data, by simp [jvalStrings], h3⟩
      · have h4 := dropGlue ht hd (by decide) h3
        rcases valOrRest hd (headNDAppend (by decide) (by decide)) h4 with h5 | h5
        · exact Or.inl ⟨iden.id.data, by simp [jvalStrings], h5⟩
        · exact Or.inr (dropGlue ht hd (by decide) h5)

/-- Extension of `jvalNoLeak` over a comma-separated field list. -/
theorem fieldsNoLeak {t : List Char} (ht : t ≠ []) (hd : allDigits t) :
    ∀ (l : List (String × JVal)) (r : List Char), headNonDigit r →
      (∀ p ∈ l, digitFree (Prod.fst p).data) →
      t <:+: renderFields l ++ r →
      (∃ p ∈ l, ∃ w ∈ jvalStrings (Prod.snd p), t <:+: w) ∨ t <:+: r := by
  intro l
  induction l with
  | nil =>
    intro r hr hk h
    exact Or.inr (by simpa [renderFields] using h)
  | cons p rest ih =>
    intro r hr hk h
    obtain ⟨k, v⟩ := p
    cases rest with
    | nil =>
      have h' : t <:+: ('"' :: k.data ++ ['"', ':']) ++ (renderJVal v ++ r) := by
        simpa [renderFields, renderPair, List.append_assoc] using h
      have h2 := dropGlue ht hd (glueDigitFree (hk (k, v) (by simp))) h'
      rcases jvalNoLeak ht hd v r hr h2 with ⟨w, hw, hsub⟩ | h3
      · exact Or.inl ⟨(k, v), by simp, w, hw, hsub⟩
      · exact Or.inr h3
    | cons q rest' =>
      have h' : t <:+: ('"' :: k.data ++ ['"', ':'])
          ++ (renderJVal v ++ ([','] ++ (renderFields (q :: rest') ++ r))) := by
        simpa [renderFields, renderPair, List.append_assoc] using h
      have h2 := dropGlue ht hd (glueDigitFree (hk (k, v) (by simp))) h'
      rcases jvalNoLeak ht hd v _ (headNDCons (by decide)) h2 with ⟨w, hw, hsub⟩ | h3
      · exact Or.inl ⟨(k, v), by simp, w, hw, hsub⟩
      · have h4 := dropGlue ht hd (by decide) h3
        rcases ih r hr (fun p hp => hk p (by simp [hp])) h4 with ⟨p, hp, w, hw, hsub⟩ | h5
        · exact Or.inl ⟨p, List.mem_cons_of_mem _ hp, w, hw, hsub⟩
        · exact Or.inr h5

/-- Main redaction lemma: a non-empty all-digit string that occurs in a
serialized log line occurs in one of the entry's dynamic values or in the
timestamp — the JSON punctuation and the (digit-free) keys cannot produce
it. -/
theorem entryNoLeak {t : List Char} (ht : t ≠ []) (hd : allDigits t)
    (e : LogEntry) (ts : String)
    (hk : ∀ p ∈ e, digitFree (Prod.fst p).data)
    (hv : ∀ p ∈ e, ∀ w ∈ jvalStrings (Prod.snd p), ¬ t <:+: w)
    (hts : ¬ t <:+: ts.data) :
    ¬ t <:+: serializeEntry e ts := by
  intro h
  have h1 : t <:+: (['\x7b'] : List Char)
      ++ (renderFields (e ++ [("timestamp", JVal.str ts)]) ++ "\x7d\n".data) := by
    simpa [serializeEntry, List.append_assoc] using h
  have h2 := dropGlue ht hd (by decide) h1
  have hkeys : ∀ p ∈ e ++ [(("timestamp" : String), JVal.str ts)],
      digitFree (Prod.fst p).data := by
    intro p hp
    rcases List.mem_append.mp hp with hp | hp
    · exact hk p hp
    · simp only [List.mem_singleton] at hp
      subst hp
      show digitFree "timestamp".data
      decide
  rcases fieldsNoLeak ht hd _ _ (headNDOfDigitFree (by decide)) hkeys h2 with
    ⟨p, hp, w, hw, hsub⟩ | hbad
  · rcases List.mem_append.mp hp with hp | hp
    · exact hv p hp w hw hsub
    · simp only [List.mem_singleton] at hp
      subst hp
      simp only [jvalStrings, List.mem_singleton] at hw
      subst hw
      exact hts hsub
  · cases t with
    | nil => exact ht rfl
    | cons c t' =>
      have h3 : c ∈ "\x7d\n".data := memOfSub hbad (by simp)
      have h4 : c.isDigit = true := hd c (by simp)
      have h5 : digitFree "\x7d\n".data := by decide
      have := h5 c h3
      simp [h4] at this

/-! ## Decimal renderings are non-empty all-digit strings -/

theorem digitCharIsDigit {m : Nat} (h : m < 10) : (Nat.digitChar m).isDigit = true := by
  interval_cases m <;> rfl

theorem toDigitsCoreDigits :
    ∀ (fuel n : Nat) (ds : List Char), (∀ c ∈ ds, c.isDigit = true) →
      ∀ c ∈ Nat.toDigitsCore 10 fuel n ds, c.isDigit = true := by
  intro fuel
  induction fuel with
  | zero =>
    intro n ds hds c hc
    exact hds c hc
  | succ fuel ih =>
    intro n ds hds c hc
    rw [Nat.toDigitsCore] at hc
    split at hc
    · rcases List.mem_cons.mp hc with rfl | hc
      · exact digitCharIsDigit (Nat.mod_lt _ (by decide))
      · exact hds c hc
    · refine ih _ _ ?_ c hc
      intro d hdmem
      rcases List.mem_cons.mp hdmem with rfl | hdmem
      · exact digitCharIsDigit (Nat.mod_lt _ (by decide))
      · exact hds d hdmem

theorem toDigitsCoreNeNil :
    ∀ (fuel n : Nat) (ds : List Char), ds ≠ [] → Nat.toDigitsCore 10 fuel n ds ≠ [] := by
  intro fuel
  induction fuel with
  | zero => intro n ds hds; simpa [Nat.toDigitsCore] using hds
  | succ fuel ih =>
    intro n ds hds
    rw [Nat.toDigitsCore]
    split
    · simp
    · exact ih _ _ (by simp)

/-- Every character of `Nat.repr n` is a decimal digit. -/
theorem reprAllDigits (n : Nat) : allDigits (Nat.repr n).data := by
  intro c hc
  have h1 : (Nat.repr n).data = Nat.toDigits 10 n := rfl
  rw [h1, Nat.toDigits] at hc
  exact toDigitsCoreDigits (n + 1) n [] (by simp) c hc

/-- `Nat.repr n` is never empty. -/
theorem reprNeNil (n : Nat) : (Nat.repr n).data ≠ [] := by
  have h1 : (Nat.repr n).data = Nat.toDigits 10 n := rfl
  rw [h1, Nat.toDigits, Nat.toDigitsCore]
  split
  · simp
  · exact toDigitsCoreNeNil _ _ _ (by simp)

/-! ## The spec-side gate order (§4.2)

Modelled from the spec: the numbered sequential gate of §4.2, "short-
circuiting at the first failing check, in this fixed order": (1) daily
rollover, (2) frozen, (3) sender authorization, (4) allowlist, (5) per-
transaction limit, (6) daily limit, (7) cooldown, (8) anomaly window.
`specFirstFailing` names the first failing check, `none` when all pass. -/

/-- The eight observable rejection causes of the §4.2 gate, in spec order. -/
inductive GateCheck where
  | frozenGate
  | senderGate
  | allowGate
  | perTxGate
  | dailyGate
  | cooldownGate
  | anomalyGate
deriving DecidableEq, Repr

/-- Modelled from the spec: the first failing check of §4.2's gate, applied
to the rolled-over state (spec step 1). -/
def specFirstFailing (cfg : GuardConfig) (al : Allowlist) (s : GuardState) (clk : Clock)
    (toAddr : String) (amount : Nat) (sender : Option Identity) : Option GateCheck :=
  let rolled := rollover s clk.today
  if rolled.frozen then some .frozenGate
  else if unauthorizedSender cfg sender then some .senderGate
  else if !isAllowed al toAddr then some .allowGate
  else if amount > cfg.limits.perTransaction then some .perTxGate
  else if rolled.dailyTotal + amount > cfg.limits.dailyMax then some .dailyGate
  else if cooldownActive s clk cfg then some .cooldownGate
  else if (pruneRecent s.recentRequests clk cfg).length + 1 ≥
      cfg.freezeOnAnomalies.rapidRequests then some .anomalyGate
  else none

/-- The reason string the source reports for each failed gate check. -/
def gateReason (cfg : GuardConfig) (s : GuardState) (clk : Clock)
    (toAddr : String) (amount : Nat) : GateCheck → String
  | .frozenGate => "🛑 Wallet is FROZEN. Unfreeze before sending."
  | .senderGate => "🚫 Unauthorized sender."
  | .allowGate => "🚫 Address not in allowlist. Add it first:\n  awg allowlist add "
      ++ toAddr ++ " --label \"description\""
  | .perTxGate => "🚫 Amount $" ++ Nat.repr amount
      ++ " exceeds per-transaction limit of $" ++ Nat.repr cfg.limits.perTransaction ++ "."
  | .dailyGate => "🚫 Would exceed daily limit. Spent: $"
      ++ Nat.repr (rollover s clk.today).dailyTotal ++ "/$"
      ++ Nat.repr cfg.limits.dailyMax ++ "."
  | .cooldownGate => "⏱️ Cooldown active. Wait "
      ++ Nat.repr (cooldownWait s clk cfg) ++ "s."
  | .anomalyGate => "🛑 WALLET AUTO-FROZEN: Too many rapid requests detected."

/-! ## Helper step lemmas -/

/-- Rollover never touches the freeze flag. -/
theorem rolloverFrozen (s : GuardState) (d : String) :
    (rollover s d).frozen = s.frozen := by
  unfold rollover
  split <;> rfl

/-- One wrong-code call on a live pending confirmation
(guard.mjs:279-302). -/
theorem confirmWrongStep (s : GuardState) (p : PendingTx) (clk : Clock) (code : String)
    (snd : Option Identity) (hp : s.pendingConfirmation = some p)
    (hexp : ¬ clk.nowMs > p.expiresAt) (hsm : senderMismatch p.sender snd = false)
    (hc : code ≠ p.code) :
    confirmSend s clk code snd =
      if p.attempts + 1 ≥ MAX_CONFIRM_ATTEMPTS then
        ⟨{ s with pendingConfirmation := none },
          [[("action", .str "brute_force_cancel"), ("to", .str p.toAddr),
            ("amount", .num p.amount), ("attempts", .num (p.attempts + 1))]],
          { approved := false,
            reason := some "🛑 Transaction auto-cancelled: too many wrong confirmation codes.",
            toAddr := none, amount := none, token := none, message := none }⟩
      else
        ⟨{ s with pendingConfirmation := some { p with attempts := p.attempts + 1 } },
          [[("action", .str "wrong_code"), ("to", .str p.toAddr),
            ("amount", .num p.amount)]],
          { approved := false,
            reason := some ("❌ Wrong confirmation code. "
              ++ Nat.repr (MAX_CONFIRM_ATTEMPTS - (p.attempts + 1)) ++ " attempt(s) remaining."),
            toAddr := none, amount := none, token := none, message := none }⟩ := by
  unfold confirmSend
  rw [hp]
  dsimp only
  rw [if_neg hexp, if_neg (by simp [hsm]), if_pos hc]

/-- One correct-code call on a live pending confirmation
(guard.mjs:304-325). -/
theorem confirmCorrectStep (s : GuardState) (p : PendingTx) (clk : Clock) (code : String)
    (snd : Option Identity) (hp : s.pendingConfirmation = some p)
    (hexp : ¬ clk.nowMs > p.expiresAt) (hsm : senderMismatch p.sender snd = false)
    (hc : code = p.code) :
    confirmSend s clk code snd =
      ⟨{ s with
          dailyTotal := s.dailyTotal + p.amount,
          lastTransaction := some clk.nowMs, pendingConfirmation := none },
        [[("action", .str "approved"), ("to", .str p.toAddr),
          ("amount", .num p.amount), ("token", .str p.token)]],
        { approved := true, reason := none,
          toAddr := some p.toAddr, amount := some p.amount, token := some p.token,
          message := some ("✅ Approved! Sending $" ++ Nat.repr p.amount ++ " "
            ++ p.token ++ " to " ++ p.toAddr) }⟩ := by
  unfold confirmSend
  rw [hp]
  dsimp only
  rw [if_neg hexp, if_neg (by simp [hsm]), if_neg (by simp [hc])]

/-! ## Claim theorems -/

/-- A stand-in HMAC function used to exhibit concrete behaviour of
`verify`. -/
def hmacDummy : String → String → List Nat := fun _ _ => [0]

/-- C5 counterexample: the claim asserts that, with a secret set, a missing
secret-protected file that should exist yields failure (`verify = false`);
in integrity.mjs:48 a missing tracked file returns `true` unconditionally,
even when a secret is set. -/
theorem C5_counterexample :
    ¬ (verify hmacDummy (some "secret-key") none none = false) := by
  decide

/-- C5 (amended): `verify` returns `false` exactly when a secret is set, the
tracked file exists, and its tag is missing or differs from its HMAC; with
no secret it always returns `true`; a missing file always verifies `true`
(there is no "should exist" failure in the code). -/
theorem C5_amended (hmacF : String → String → List Nat) :
    (∀ content tag, verify hmacF none content tag = true) ∧
    (∀ sec tag, verify hmacF (some sec) none tag = true) ∧
    (∀ sec c, verify hmacF (some sec) (some c) none = false) ∧
    (∀ sec c tag, (verify hmacF (some sec) (some c) (some tag) = true ↔ tag = hmacF sec c)) := by
  refine ⟨fun _ _ => rfl, fun _ _ => rfl, fun _ _ => rfl, fun sec c tag => ?_⟩
  unfold verify
  dsimp only
  by_cases h : (hmacF sec c).length ≠ tag.length
  · rw [if_pos h]
    constructor
    · intro hfalse
      exact absurd hfalse (by simp)
    · intro heq
      subst heq
      simp at h
  · rw [if_neg h]
    constructor
    · intro hbeq
      exact (beq_iff_eq.mp hbeq).symm
    · intro heq
      subst heq
      exact beq_self_eq_true _

/-- C7 counterexample: the claim says 999999 is a possible confirmation
code, but `crypto.randomInt(100000, 999999)` has an exclusive upper bound,
so `genCode` never produces 999999. -/
theorem C7_counterexample : ¬ ∃ r : Nat, genCode r = 999999 := by
  rintro ⟨r, hr⟩
  unfold genCode randomInt at hr
  omega

/-- C7 (amended): the code generated at guard.mjs:230 is uniform over
100000–999998 inclusive: every value of that range is attainable, no value
outside it (in particular 999999) is ever produced. -/
theorem C7_amended :
    (∀ r : Nat, 100000 ≤ genCode r ∧ genCode r ≤ 999998) ∧
    (∀ v : Nat, 100000 ≤ v → v ≤ 999998 → ∃ r : Nat, genCode r = v) := by
  constructor
  · intro r
    unfold genCode randomInt
    have h1 : r % (999999 - 100000) < 899999 := Nat.mod_lt _ (by decide)
    omega
  · intro v h1 h2
    refine ⟨v - 100000, ?_⟩
    unfold genCode randomInt
    have h3 : (v - 100000) % (999999 - 100000) = v - 100000 :=
      Nat.mod_eq_of_lt (by omega)
    omega

/-- Witness for C7 (amended): 123456 is an attainable code. -/
theorem C7_witness :
    100000 ≤ 123456 ∧ 123456 ≤ 999998 ∧ ∃ r : Nat, genCode r = 123456 :=
  ⟨by decide, by decide, C7_amended.2 123456 (by decide) (by decide)⟩

/-- C10: `getStatus` mutates nothing except the date rollover: frozen,
frozenAt, frozenReason, lastTransaction, pendingConfirmation and
recentRequests are always unchanged; when the stored date equals today the
state is untouched, otherwise only dailyTotal is reset to zero and
dailyDate updated.  It also appends no audit entries. -/
theorem C10_getStatus (cfg : GuardConfig) (s : GuardState) (clk : Clock) :
    (getStatus cfg s clk).state.frozen = s.frozen ∧
    (getStatus cfg s clk).state.frozenAt = s.frozenAt ∧
    (getStatus cfg s clk).state.frozenReason = s.frozenReason ∧
    (getStatus cfg s clk).state.lastTransaction = s.lastTransaction ∧
    (getStatus cfg s clk).state.pendingConfirmation = s.pendingConfirmation ∧
    (getStatus cfg s clk).state.recentRequests = s.recentRequests ∧
    (s.dailyDate = clk.today → (getStatus cfg s clk).state = s) ∧
    (s.dailyDate ≠ clk.today → (getStatus cfg s clk).state.dailyTotal = 0 ∧
      (getStatus cfg s clk).state.dailyDate = clk.today) ∧
    (getStatus cfg s clk).log = [] := by
  unfold getStatus rollover
  by_cases h : s.dailyDate = clk.today <;> simp [h]

/-- Witness for C10: on a same-date call the state is returned untouched. -/
theorem C10_witness :
    (getStatus DEFAULT_CONFIG (initialState "2026-10-11")
        ⟨0, "2026-10-11T00:00:00.000Z", "2026-10-11"⟩).state =
      initialState "2026-10-11" :=
  (C10_getStatus DEFAULT_CONFIG (initialState "2026-10-11")
    ⟨0, "2026-10-11T00:00:00.000Z", "2026-10-11"⟩).2.2.2.2.2.2.1 rfl

/-- C3: a correct-code confirm on an existing, unexpired pending
confirmation with no sender mismatch commits: dailyTotal increases by the
pending amount, lastTransaction is set to the current time, the pending
confirmation is cleared, exactly one approval entry is appended, and the
call returns `approved := true` with the pending to/amount/token. -/
theorem C3_commit (s : GuardState) (p : PendingTx) (clk : Clock) (code : String)
    (snd : Option Identity) (hp : s.pendingConfirmation = some p)
    (hexp : ¬ clk.nowMs > p.expiresAt) (hsm : senderMismatch p.sender snd = false)
    (hc : code = p.code) :
    (confirmSend s clk code snd).state.dailyTotal = s.dailyTotal + p.amount ∧
    (confirmSend s clk code snd).state.lastTransaction = some clk.nowMs ∧
    (confirmSend s clk code snd).state.pendingConfirmation = none ∧
    (confirmSend s clk code snd).log =
      [[("action", .str "approved"), ("to", .str p.toAddr),
        ("amount", .num p.amount), ("token", .str p.token)]] ∧
    (confirmSend s clk code snd).result.approved = true ∧
    (confirmSend s clk code snd).result.toAddr = some p.toAddr ∧
    (confirmSend s clk code snd).result.amount = some p.amount ∧
    (confirmSend s clk code snd).result.token = some p.token := by
  rw [confirmCorrectStep s p clk code snd hp hexp hsm hc]
  exact ⟨rfl, rfl, rfl, rfl, rfl, rfl, rfl, rfl⟩

/-- A concrete pending transaction used in witnesses. -/
def c3wPending : PendingTx :=
  { code := "123456", toAddr := "0xabcd", amount := 5, token := "USDC",
    sender := none, attempts := 0,
    createdAt := "2026-10-11T00:00:00.000Z", expiresAt := 300000 }

/-- A concrete state holding `c3wPending`. -/
def c3wState : GuardState :=
  { initialState "2026-10-11" with pendingConfirmation := some c3wPending }

/-- A concrete clock before the pending expiry. -/
def c3wClock : Clock := ⟨1000, "2026-10-11T00:00:01.000Z", "2026-10-11"⟩

/-- Witness for C3: a concrete commit. -/
theorem C3_witness :
    (confirmSend c3wState c3wClock "123456" none).state.dailyTotal =
        c3wState.dailyTotal + 5 ∧
      (confirmSend c3wState c3wClock "123456" none).result.approved = true :=
  ⟨(C3_commit c3wState c3wPending c3wClock "123456" none rfl (by decide)
      (by decide) rfl).1,
    (C3_commit c3wState c3wPending c3wClock "123456" none rfl (by decide)
      (by decide) rfl).2.2.2.2.1⟩

/-- C9: `confirmSend` never consults the frozen flag — on a frozen wallet a
correct-code confirm of an unexpired pending confirmation (no sender
mismatch) still approves and adds the amount to dailyTotal, and the wallet
stays frozen. -/
theorem C9_frozenConfirm (s : GuardState) (p : PendingTx) (clk : Clock) (code : String)
    (snd : Option Identity) (hfrozen : s.frozen = true)
    (hp : s.pendingConfirmation = some p)
    (hexp : ¬ clk.nowMs > p.expiresAt) (hsm : senderMismatch p.sender snd = false)
    (hc : code = p.code) :
    (confirmSend s clk code snd).result.approved = true ∧
    (confirmSend s clk code snd).state.dailyTotal = s.dailyTotal + p.amount ∧
    (confirmSend s clk code snd).state.frozen = true := by
  rw [confirmCorrectStep s p clk code snd hp hexp hsm hc]
  exact ⟨rfl, rfl, hfrozen⟩

/-- A concrete frozen state holding a pending transaction. -/
def c9wState : GuardState :=
  { initialState "2026-10-11" with
    frozen := true, frozenReason := some "manual",
    pendingConfirmation := some
      { code := "654321", toAddr := "0xabcd", amount := 7, token := "USDC",
        sender := none, attempts := 0,
        createdAt := "2026-10-11T00:00:00.000Z", expiresAt := 300000 } }

/-- Witness for C9: a frozen wallet still commits a pending confirm. -/
theorem C9_witness :
    c9wState.frozen = true ∧
      (confirmSend c9wState c3wClock "654321" none).result.approved = true ∧
      (confirmSend c9wState c3wClock "654321" none).state.dailyTotal = 7 :=
  ⟨rfl,
    (C9_frozenConfirm c9wState _ c3wClock "654321" none rfl rfl (by decide)
      (by decide) rfl).1,
    (C9_frozenConfirm c9wState _ c3wClock "654321" none rfl rfl (by decide)
      (by decide) rfl).2.1⟩

/-- C1: starting from a pending confirmation with `attempts = 0`, three
wrong-code confirms (each on an unexpired pending, no sender mismatch)
increment `attempts` by exactly 1 per call; the pending confirmation
survives the 1st and 2nd wrong code and is destroyed exactly on the 3rd
(with a brute-force-cancel entry recording 3 attempts), and a 4th call
finds nothing pending and leaves the state unchanged. -/
theorem C1_bruteForce (s : GuardState) (p : PendingTx)
    (clk1 clk2 clk3 clk4 : Clock) (c1 c2 c3 c4 : String)
    (snd1 snd2 snd3 snd4 : Option Identity)
    (hp : s.pendingConfirmation = some p) (hA : p.attempts = 0)
    (he1 : ¬ clk1.nowMs > p.expiresAt) (he2 : ¬ clk2.nowMs > p.expiresAt)
    (he3 : ¬ clk3.nowMs > p.expiresAt)
    (hm1 : senderMismatch p.sender snd1 = false)
    (hm2 : senderMismatch p.sender snd2 = false)
    (hm3 : senderMismatch p.sender snd3 = false)
    (hc1 : c1 ≠ p.code) (hc2 : c2 ≠ p.code) (hc3 : c3 ≠ p.code) :
    confirmSend s clk1 c1 snd1 =
      ⟨{ s with pendingConfirmation := some { p with attempts := 1 } },
        [[("action", .str "wrong_code"), ("to", .str p.toAddr),
          ("amount", .num p.amount)]],
        { approved := false,
          reason := some "❌ Wrong confirmation code. 2 attempt(s) remaining.",
          toAddr := none, amount := none, token := none, message := none }⟩ ∧
    confirmSend { s with pendingConfirmation := some { p with attempts := 1 } }
        clk2 c2 snd2 =
      ⟨{ s with pendingConfirmation := some { p with attempts := 2 } },
        [[("action", .str "wrong_code"), ("to", .str p.toAddr),
          ("amount", .num p.amount)]],
        { approved := false,
          reason := some "❌ Wrong confirmation code. 1 attempt(s) remaining.",
          toAddr := none, amount := none, token := none, message := none }⟩ ∧
    confirmSend { s with pendingConfirmation := some { p with attempts := 2 } }
        clk3 c3 snd3 =
      ⟨{ s with pendingConfirmation := none },
        [[("action", .str "brute_force_cancel"), ("to", .str p.toAddr),
          ("amount", .num p.amount), ("attempts", .num 3)]],
        { approved := false,
          reason := some "🛑 Transaction auto-cancelled: too many wrong confirmation codes.",
          toAddr := none, amount := none, token := none, message := none }⟩ ∧
    confirmSend { s with pendingConfirmation := none } clk4 c4 snd4 =
      ⟨{ s with pendingConfirmation := none }, [],
        { approved := false, reason := some "No pending transaction to confirm.",
          toAddr := none, amount := none, token := none, message := none }⟩ := by
  obtain ⟨pcode, ptoA, pam, ptok, psnd, patt, pcre, pexp⟩ := p
  dsimp only at hA
  subst hA
  dsimp only
  refine ⟨?_, ?_, ?_, rfl⟩
  · have e1 := confirmWrongStep s _ clk1 c1 snd1 hp he1 hm1 hc1
    rw [if_neg (by simp [MAX_CONFIRM_ATTEMPTS])] at e1
    dsimp only at e1
    rw [e1]
    simp [MAX_CONFIRM_ATTEMPTS]
    decide
  · have e2 := confirmWrongStep
        { s with pendingConfirmation := some ⟨pcode, ptoA, pam, ptok, psnd, 1, pcre, pexp⟩ }
        ⟨pcode, ptoA, pam, ptok, psnd, 1, pcre, pexp⟩ clk2 c2 snd2 rfl he2 hm2 hc2
    rw [if_neg (by simp [MAX_CONFIRM_ATTEMPTS])] at e2
    dsimp only at e2
    rw [e2]
    simp [MAX_CONFIRM_ATTEMPTS]
    decide
  · have e3 := confirmWrongStep
        { s with pendingConfirmation := some ⟨pcode, ptoA, pam, ptok, psnd, 2, pcre, pexp⟩ }
        ⟨pcode, ptoA, pam, ptok, psnd, 2, pcre, pexp⟩ clk3 c3 snd3 rfl he3 hm3 hc3
    rw [if_pos (by simp [MAX_CONFIRM_ATTEMPTS])] at e3
    dsimp only at e3
    rw [e3]

/-- Witness for C1: a concrete wrong-code call on a fresh pending
confirmation leaves it pending with `attempts = 1`. -/
theorem C1_witness :
    c3wState.pendingConfirmation = some c3wPending ∧
    c3wPending.attempts = 0 ∧
    "000001" ≠ c3wPending.code ∧
    (confirmSend c3wState c3wClock "000001" none).state.pendingConfirmation
        = some { c3wPending with attempts := 1 } := by
  refine ⟨rfl, rfl, by decide, ?_⟩
  have h := (C1_bruteForce c3wState c3wPending c3wClock c3wClock c3wClock c3wClock
      "000001" "000002" "000003" "000004" none none none none rfl rfl
      (by decide) (by decide) (by decide) rfl rfl rfl
      (by decide) (by decide) (by decide)).1
  rw [h]

/-- C8: `dailyTotal` changes only through an approved send or the daily
rollover: every `requestSend` outcome leaves it unchanged or reset to 0 (the
rollover); every non-approved `confirmSend` leaves it exactly unchanged
(no rollover happens there); `freeze`/`unfreeze` never touch it; `getStatus`
leaves it unchanged or performs the rollover reset; and a sender-mismatch
confirm in particular rejects without altering it. -/
theorem C8_dailyTotal :
    (∀ cfg al s clk rnd toA amount token sender,
      (requestSend cfg al s clk rnd toA amount token sender).state.dailyTotal
          = s.dailyTotal ∨
        (requestSend cfg al s clk rnd toA amount token sender).state.dailyTotal = 0) ∧
    (∀ s clk code sender, (confirmSend s clk code sender).result.approved = false →
      (confirmSend s clk code sender).state.dailyTotal = s.dailyTotal) ∧
    (∀ s clk reason, (freeze s clk reason).state.dailyTotal = s.dailyTotal) ∧
    (∀ s, (unfreeze s).state.dailyTotal = s.dailyTotal) ∧
    (∀ cfg s clk, (getStatus cfg s clk).state.dailyTotal = s.dailyTotal ∨
      (getStatus cfg s clk).state.dailyTotal = 0) ∧
    (∀ s p clk code sender, s.pendingConfirmation = some p →
      ¬ clk.nowMs > p.expiresAt → senderMismatch p.sender sender = true →
      (confirmSend s clk code sender).result.reason =
          some "🚫 Sender mismatch. Only the original requester can confirm." ∧
        (confirmSend s clk code sender).state.dailyTotal = s.dailyTotal) := by
  refine ⟨?_, ?_, fun _ _ _ => rfl, fun _ => rfl, ?_, ?_⟩
  · intro cfg al s clk rnd toA amount token sender
    have hroll : (rollover s clk.today).dailyTotal = s.dailyTotal ∨
        (rollover s clk.today).dailyTotal = 0 := by
      unfold rollover
      split
      · exact Or.inr rfl
      · exact Or.inl rfl
    simp only [requestSend]
    split_ifs <;> first | exact Or.inl rfl | exact hroll
  · intro s clk code sender happ
    unfold confirmSend at happ ⊢
    cases hp : s.pendingConfirmation with
    | none => rfl
    | some p =>
      dsimp only at happ ⊢
      split_ifs at happ ⊢ <;> simp_all
  · intro cfg s clk
    unfold getStatus rollover
    split_ifs <;> simp
  · intro s p clk code sender hp hexp hsm
    unfold confirmSend
    rw [hp]
    dsimp only
    rw [if_neg hexp, if_pos hsm]
    exact ⟨rfl, rfl⟩

/-- A pending transaction tagged with a requester identity. -/
def c8wPending : PendingTx :=
  { code := "123456", toAddr := "0xabcd", amount := 5, token := "USDC",
    sender := some ⟨"imessage", "+1234"⟩, attempts := 0,
    createdAt := "2026-10-11T00:00:00.000Z", expiresAt := 300000 }

/-- A state holding `c8wPending`. -/
def c8wState : GuardState :=
  { initialState "2026-10-11" with pendingConfirmation := some c8wPending }

/-- Witness for C8: a concrete sender-mismatch confirm leaves dailyTotal
unchanged. -/
theorem C8_witness :
    (c8wState.pendingConfirmation = some c8wPending) ∧
    senderMismatch c8wPending.sender (some ⟨"imessage", "+5555"⟩) = true ∧
    (confirmSend c8wState c3wClock "123456" (some ⟨"imessage", "+5555"⟩)).result.reason =
        some "🚫 Sender mismatch. Only the original requester can confirm." ∧
    (confirmSend c8wState c3wClock "123456" (some ⟨"imessage", "+5555"⟩)).state.dailyTotal =
        c8wState.dailyTotal := by
  refine ⟨rfl, by decide, ?_, ?_⟩
  · exact (C8_dailyTotal.2.2.2.2.2 c8wState c8wPending c3wClock "123456"
      (some ⟨"imessage", "+5555"⟩) rfl (by decide) (by decide)).1
  · exact (C8_dailyTotal.2.2.2.2.2 c8wState c8wPending c3wClock "123456"
      (some ⟨"imessage", "+5555"⟩) rfl (by decide) (by decide)).2

/-- The concrete input exhibiting the unlogged cooldown rejection: a fresh
state whose last transaction was 5 seconds ago. -/
def c4wState : GuardState :=
  { initialState "2026-10-11" with lastTransaction := some 0 }

/-- The clock 5 seconds after `c4wState.lastTransaction`. -/
def c4wClock : Clock := ⟨5000, "2026-10-11T00:00:05.000Z", "2026-10-11"⟩

/-- The allowlist holding the requested destination. -/
def c4wAllow : Allowlist := ⟨[⟨"0xabcd", "Test", "2026-01-01T00:00:00.000Z"⟩]⟩

/-- C4 (code bug): at an input where every earlier check passes and the
cooldown check fails (5 s elapsed of a 30 s cooldown), `requestSend`
rejects with the cooldown reason but appends NO audit entry —
guard.mjs:205-212 is the only rejection path with no `logTransaction`
call, contradicting the spec's "every rejection … paired with exactly one
audit entry". -/
theorem C4_cooldownUnlogged :
    (requestSend DEFAULT_CONFIG c4wAllow c4wState c4wClock 0 "0xABCD" 10 "USDC" none).log
        = [] ∧
    (requestSend DEFAULT_CONFIG c4wAllow c4wState c4wClock 0 "0xABCD" 10 "USDC" none).result.reason
        = some "⏱️ Cooldown active. Wait 25s." ∧
    (requestSend DEFAULT_CONFIG c4wAllow c4wState c4wClock 0 "0xABCD" 10 "USDC" none).result.approved
        = false := by
  decide

/-- C2: `requestSend` is the sequential short-circuiting gate of §4.2 in
exactly the spec's order: the observed rejection reason is that of the
first failing check of `specFirstFailing`, and all checks pass if and only
if the call returns `needsConfirmation`.  In particular, on a frozen wallet
the call rejects immediately with the frozen reason and the persisted state
is completely untouched — `recentRequestTimestamps` is not modified, so the
request is not counted toward anomaly tracking. -/
theorem C2_gateOrder (cfg : GuardConfig) (al : Allowlist) (s : GuardState) (clk : Clock)
    (rnd : Nat) (toA : String) (amount : Nat) (token : String) (sender : Option Identity) :
    ((requestSend cfg al s clk rnd toA amount token sender).result.reason
        = (specFirstFailing cfg al s clk toA amount sender).map
            (gateReason cfg s clk toA amount)) ∧
    ((requestSend cfg al s clk rnd toA amount token sender).result.needsConfirmation = true ↔
        specFirstFailing cfg al s clk toA amount sender = none) ∧
    (s.frozen = true →
      (requestSend cfg al s clk rnd toA amount token sender).state = s ∧
      (requestSend cfg al s clk rnd toA amount token sender).state.recentRequests
          = s.recentRequests ∧
      (requestSend cfg al s clk rnd toA amount token sender).result.reason
          = some "🛑 Wallet is FROZEN. Unfreeze before sending.") := by
  have hrf : (rollover s clk.today).frozen = s.frozen := rolloverFrozen s clk.today
  simp only [requestSend, specFirstFailing, List.length_append, List.length_cons,
    List.length_nil, Nat.zero_add]
  split_ifs with h1 h2 h3 h4 h5 h6 h7 <;>
    simp_all [gateReason]

/-- A frozen wallet state for the C2 witness. -/
def c2wState : GuardState := { initialState "2026-10-11" with frozen := true }

/-- Witness for C2: a frozen wallet rejects immediately with the frozen
reason and the persisted state (hence `recentRequests`) is untouched. -/
theorem C2_witness :
    c2wState.frozen = true ∧
    (requestSend DEFAULT_CONFIG c4wAllow c2wState c4wClock 0 "0xABCD" 10 "USDC" none).state
        = c2wState ∧
    (requestSend DEFAULT_CONFIG c4wAllow c2wState c4wClock 0 "0xABCD" 10 "USDC" none).result.reason
        = some "🛑 Wallet is FROZEN. Unfreeze before sending." := by
  refine ⟨rfl, ?_, ?_⟩
  · exact ((C2_gateOrder DEFAULT_CONFIG c4wAllow c2wState c4wClock 0 "0xABCD" 10 "USDC"
      none).2.2 rfl).1
  · exact ((C2_gateOrder DEFAULT_CONFIG c4wAllow c2wState c4wClock 0 "0xABCD" 10 "USDC"
      none).2.2 rfl).2.2

/-- A non-empty all-digit string never occurs inside a digit-free string. -/
theorem noDigitsInFree {t w : List Char} (ht : t ≠ []) (hd : allDigits t)
    (hw : digitFree w) : ¬ t <:+: w := by
  intro h
  cases t with
  | nil => exact ht rfl
  | cons c t' =>
    have h1 := hw c (memOfSub h (by simp))
    have h2 := hd c (by simp)
    simp [h2] at h1

/-- Entry-level dispatch: digit-free keys (checked computationally) plus
the absence of the digit string from every dynamic value keep it out of
the serialized line. -/
theorem entryLeakFree {t : List Char} (ht : t ≠ []) (hd : allDigits t)
    (e : LogEntry) (ts : String)
    (hk : (e.map Prod.fst).all (fun k => decide (digitFree k.data)) = true)
    (hv : ∀ w ∈ (e.map (fun p => jvalStrings (Prod.snd p))).flatten, ¬ t <:+: w)
    (hts : ¬ t <:+: ts.data) :
    ¬ t <:+: serializeEntry e ts := by
  refine entryNoLeak ht hd e ts ?_ (fun p hp w hw => hv w ?_) hts
  · intro p hp
    have h1 := List.all_eq_true.mp hk _ (List.mem_map_of_mem _ hp)
    exact of_decide_eq_true h1
  · exact List.mem_flatten.2 ⟨jvalStrings p.2, List.mem_map_of_mem _ hp, hw⟩

set_option maxHeartbeats 1000000 in
/-- C6 (amended): no audit-log line ever contains the confirmation code —
or any other non-empty all-digit string `t` — unless `t`'s digits occur
inside one of the logged dynamic fields (destination address, token symbol,
identity strings, freeze reason, decimal renderings of amount / request
count / attempts, or the timestamp).  In particular the code itself is
never a logged field: instantiating `t` with the pending code (for
`confirmSend`) or the freshly generated code (for `requestSend`) shows the
code stays out of `transactions.log` whenever it does not coincide with
those unrelated fields.  The generated code does appear in the value
`requestSend` returns to the caller. -/
theorem C6_amended :
    (∀ (t : List Char) (cfg : GuardConfig) (al : Allowlist) (s : GuardState) (clk : Clock)
        (rnd : Nat) (toA : String) (amount : Nat) (token : String)
        (sender : Option Identity) (ts : String),
      t ≠ [] → allDigits t →
      ¬ t <:+: toA.data → ¬ t <:+: token.data →
      (∀ i, sender = some i → ¬ t <:+: i.platform.data ∧ ¬ t <:+: i.id.data) →
      ¬ t <:+: (Nat.repr amount).data →
      ¬ t <:+: (Nat.repr ((pruneRecent s.recentRequests clk cfg).length + 1)).data →
      ¬ t <:+: ts.data →
      ∀ e ∈ (requestSend cfg al s clk rnd toA amount token sender).log,
        ¬ t <:+: serializeEntry e ts) ∧
    (∀ (t : List Char) (s : GuardState) (p : PendingTx) (clk : Clock)
        (code : String) (sender : Option Identity) (ts : String),
      s.pendingConfirmation = some p →
      t ≠ [] → allDigits t →
      ¬ t <:+: p.toAddr.data → ¬ t <:+: p.token.data →
      ¬ t <:+: (Nat.repr p.amount).data →
      ¬ t <:+: (Nat.repr (p.attempts + 1)).data →
      ¬ t <:+: ts.data →
      ∀ e ∈ (confirmSend s clk code sender).log, ¬ t <:+: serializeEntry e ts) ∧
    (∀ s clk code sender, s.pendingConfirmation = none →
      (confirmSend s clk code sender).log = []) ∧
    (∀ (t : List Char) (s : GuardState) (clk : Clock) (reason ts : String),
      t ≠ [] → allDigits t → ¬ t <:+: reason.data → ¬ t <:+: ts.data →
      ∀ e ∈ (freeze s clk reason).log, ¬ t <:+: serializeEntry e ts) ∧
    (∀ (t : List Char) (s : GuardState) (ts : String),
      t ≠ [] → allDigits t → ¬ t <:+: ts.data →
      ∀ e ∈ (unfreeze s).log, ¬ t <:+: serializeEntry e ts) ∧
    (∀ cfg s clk, (getStatus cfg s clk).log = []) ∧
    (∀ cfg al s clk rnd toA amount token sender,
      (requestSend cfg al s clk rnd toA amount token sender).result.needsConfirmation = true →
      ∃ m, (requestSend cfg al s clk rnd toA amount token sender).result.message = some m ∧
        (Nat.repr (genCode rnd)).data <:+: m.data) := by
  refine ⟨?_, ?_, ?_, ?_, ?_, fun _ _ _ => rfl, ?_⟩
  · intro t cfg al s clk rnd toA amount token sender ts ht hd hto htok hsen ham hcnt hts
    intro e he
    simp only [requestSend, List.length_append, List.length_cons, List.length_nil,
      Nat.zero_add] at he
    split_ifs at he <;>
      simp only [List.mem_singleton, List.not_mem_nil] at he <;>
      subst he <;>
      refine entryLeakFree ht hd _ ts (by simp only [List.map_cons, List.map_nil]; decide)
        ?_ hts <;>
      intro w hw <;>
      simp only [List.map_cons, List.map_nil, jvalStrings, List.flatten_cons,
        List.flatten_nil, List.append_nil, List.nil_append, List.cons_append, List.mem_cons,
        List.not_mem_nil, or_false] at hw
    · rcases hw with rfl | rfl | rfl | rfl | rfl
      · exact noDigitsInFree ht hd (by decide)
      · exact noDigitsInFree ht hd (by decide)
      · exact hto
      · exact ham
      · exact htok
    · cases hsnd : sender with
      | none =>
        subst hsnd
        simp only [jvalStrings, List.mem_append, List.mem_cons, List.nil_append,
          List.not_mem_nil, or_false] at hw
        rcases hw with rfl | rfl | rfl | rfl
        · exact noDigitsInFree ht hd (by decide)
        · exact noDigitsInFree ht hd (by decide)
        · exact hto
        · exact ham
      | some i =>
        subst hsnd
        simp only [jvalStrings, List.mem_append, List.mem_cons, List.cons_append,
          List.nil_append, List.not_mem_nil, or_false] at hw
        rcases hw with rfl | rfl | rfl | rfl | rfl | rfl
        · exact noDigitsInFree ht hd (by decide)
        · exact noDigitsInFree ht hd (by decide)
        · exact (hsen i rfl).1
        · exact (hsen i rfl).2
        · exact hto
        · exact ham
    · rcases hw with rfl | rfl | rfl | rfl
      · exact noDigitsInFree ht hd (by decide)
      · exact noDigitsInFree ht hd (by decide)
      · exact hto
      · exact ham
    · rcases hw with rfl | rfl | rfl | rfl
      · exact noDigitsInFree ht hd (by decide)
      · exact noDigitsInFree ht hd (by decide)
      · exact hto
      · exact ham
    · rcases hw with rfl | rfl | rfl | rfl
      · exact noDigitsInFree ht hd (by decide)
      · exact noDigitsInFree ht hd (by decide)
      · exact hto
      · exact ham
    · rcases hw with rfl | rfl | rfl
      · exact noDigitsInFree ht hd (by decide)
      · exact noDigitsInFree ht hd (by decide)
      · exact hcnt
    · rcases hw with rfl | rfl | rfl | rfl
      · exact noDigitsInFree ht hd (by decide)
      · exact hto
      · exact ham
      · exact htok
  · intro t s p clk code sender ts hp ht hd hpto hptok hpam hatt hts
    intro e he
    simp only [confirmSend] at he
    rw [hp] at he
    dsimp only at he
    split_ifs at he <;>
      simp only [List.mem_singleton, List.not_mem_nil] at he <;>
      subst he <;>
      refine entryLeakFree ht hd _ ts (by simp only [List.map_cons, List.map_nil]; decide)
        ?_ hts <;>
      intro w hw <;>
      simp only [List.map_cons, List.map_nil, jvalStrings, List.flatten_cons,
        List.flatten_nil, List.append_nil, List.nil_append, List.cons_append, List.mem_cons,
        List.not_mem_nil, or_false] at hw
    · rcases hw with rfl | rfl | rfl
      · exact noDigitsInFree ht hd (by decide)
      · exact hpto
      · exact hpam
    · rcases hw with rfl | rfl | rfl
      · exact noDigitsInFree ht hd (by decide)
      · exact hpto
      · exact hpam
    · rcases hw with rfl | rfl | rfl | rfl
      · exact noDigitsInFree ht hd (by decide)
      · exact hpto
      · exact hpam
      · exact hatt
    · rcases hw with rfl | rfl | rfl
      · exact noDigitsInFree ht hd (by decide)
      · exact hpto
      · exact hpam
    · rcases hw with rfl | rfl | rfl | rfl
      · exact noDigitsInFree ht hd (by decide)
      · exact hpto
      · exact hpam
      · exact hptok
  · intro s clk code sender hp
    simp only [confirmSend]
    rw [hp]
  · intro t s clk reason ts ht hd hreason hts e he
    simp only [freeze, List.mem_singleton] at he
    subst he
    refine entryLeakFree ht hd _ ts (by simp only [List.map_cons, List.map_nil]; decide)
      ?_ hts
    intro w hw
    simp only [List.map_cons, List.map_nil, jvalStrings, List.flatten_cons,
      List.flatten_nil, List.append_nil, List.nil_append, List.cons_append, List.mem_cons,
      List.not_mem_nil, or_false] at hw
    rcases hw with rfl | rfl
    · exact noDigitsInFree ht hd (by decide)
    · exact hreason
  · intro t s ts ht hd hts e he
    simp only [unfreeze, List.mem_singleton] at he
    subst he
    refine entryLeakFree ht hd _ ts (by simp only [List.map_cons, List.map_nil]; decide)
      ?_ hts
    intro w hw
    simp only [List.map_cons, List.map_nil, jvalStrings, List.flatten_cons,
      List.flatten_nil, List.append_nil, List.nil_append, List.cons_append, List.mem_cons,
      List.not_mem_nil, or_false] at hw
    rcases hw with rfl
    exact noDigitsInFree ht hd (by decide)
  · intro cfg al s clk rnd toA amount token sender hconf
    simp only [requestSend, List.length_append, List.length_cons, List.length_nil,
      Nat.zero_add] at hconf ⊢
    split_ifs at hconf ⊢
    all_goals (dsimp only at hconf ⊢; try exact absurd hconf (by decide))
    refine ⟨_, rfl, ?_⟩
    refine ⟨("🔐 Confirm send of $" ++ Nat.repr amount ++ " " ++ token ++ " to " ++ toA
        ++ "\n\nConfirmation code: **").data,
      ("**\n\nReply with this code to approve. Expires in "
        ++ Nat.repr (cfg.confirmation.codeExpiry / 60) ++ " minutes.").data, ?_⟩
    simp only [String.data_append, List.append_assoc]

/-- The clock used by the C6 concrete runs. -/
def c6wClock : Clock := ⟨0, "2026-10-11T00:00:00.000Z", "2026-10-11"⟩

/-- Witness for C6 (amended): the wrong-code entry of a concrete confirm
call does not contain the pending code "123456". -/
theorem C6_witness :
    "123456".data ≠ ([] : List Char) ∧
    allDigits "123456".data ∧
    [(("action" : String), JVal.str "wrong_code"), ("to", JVal.str "0xabcd"),
        ("amount", JVal.num 5)] ∈ (confirmSend c3wState c3wClock "000000" none).log ∧
    ¬ "123456".data <:+: serializeEntry
        [(("action" : String), JVal.str "wrong_code"), ("to", JVal.str "0xabcd"),
          ("amount", JVal.num 5)] "2026-10-11T00:00:05.000Z" := by
  refine ⟨by decide, by decide, by decide, ?_⟩
  exact C6_amended.2.1 "123456".data c3wState c3wPending c3wClock "000000" none
    "2026-10-11T00:00:05.000Z" rfl (by decide) (by decide) (by decide) (by decide)
    (by decide) (by decide) (by decide) _ (by decide)

set_option maxRecDepth 8000 in
/-- C6 counterexample: the claim as stated is false.  A reachable trace:
`requestSend` with entropy 23456 creates a pending confirmation whose code
is the literal "123456"; a second `requestSend` to a non-allowlisted
address with amount 123456 is rejected while that confirmation is still
pending, and the rejection entry it appends to `transactions.log` contains
"123456" — the pending code — as a substring (via the amount field). -/
theorem C6_counterexample :
    ((requestSend DEFAULT_CONFIG c4wAllow (initialState "2026-10-11") c6wClock 23456
        "0xABCD" 5 "USDC" none).state.pendingConfirmation.map PendingTx.code)
        = some "123456" ∧
    (requestSend DEFAULT_CONFIG c4wAllow
        (requestSend DEFAULT_CONFIG c4wAllow (initialState "2026-10-11") c6wClock 23456
          "0xABCD" 5 "USDC" none).state c6wClock 0 "0xdead" 123456 "USDC"
        none).state.pendingConfirmation.map PendingTx.code = some "123456" ∧
    (requestSend DEFAULT_CONFIG c4wAllow
        (requestSend DEFAULT_CONFIG c4wAllow (initialState "2026-10-11") c6wClock 23456
          "0xABCD" 5 "USDC" none).state c6wClock 0 "0xdead" 123456 "USDC" none).log
        = [[(("action" : String), JVal.str "rejected"),
            ("reason", JVal.str "address_not_allowlisted"),
            ("to", JVal.str "0xdead"), ("amount", JVal.num 123456)]] ∧
    "123456".data <:+: serializeEntry
        [(("action" : String), JVal.str "rejected"),
          ("reason", JVal.str "address_not_allowlisted"),
          ("to", JVal.str "0xdead"), ("amount", JVal.num 123456)]
        "2026-10-11T00:00:00.000Z" := by
  decide

/-- Witness for C5 (amended): concrete evaluations of `verify` at the
stand-in HMAC. -/
theorem C5_witness :
    verify hmacDummy none (some "x") none = true ∧
    verify hmacDummy (some "k") (some "x") none = false ∧
    (verify hmacDummy (some "k") (some "x") (some [0]) = true ↔ [0] = hmacDummy "k" "x") :=
  ⟨(C5_amended hmacDummy).1 (some "x") none,
    (C5_amended hmacDummy).2.2.1 "k" "x",
    (C5_amended hmacDummy).2.2.2 "k" "x" [0]⟩
